import Mathlib

/-!
Verification of the usage-quota engine and AI request orchestration of the
humsafer backend (`src/usage-limits.js`, `src/ai.js`).

Shallow embedding conventions:
* Timestamps are integers (milliseconds since epoch), mirroring JS `Date`
  arithmetic; the floating-point divisions in the source
  (`(now - createdAt) / 86400000`, `(now - last) / 1000`) are modelled as
  exact rational (`ℚ`) divisions, with `Math.floor`/`Math.ceil` as
  `Int.floor`/`Int.ceil`.
* Firestore reads are modelled by the `Read` type: a read either succeeds
  with a document (`ok`), finds no document (`missing`), or throws (`fail`).
* `getNextDayStart()` (next local midnight strictly after "now") is passed
  in as an explicit parameter `nm`; theorems that need it assume `now < nm`.
* JS objects returned by `checkMessageLimit` carry keys only in some
  branches; absent keys (`undefined`) are modelled with `Option`.
-/

namespace Humsafer

/-- Outcome of a Firestore `get`: document data, no document, or a thrown
error (caught by the source's `try/catch`). -/
inductive Read (α : Type) where
  | ok (data : α)
  | missing
  | fail
deriving DecidableEq, Repr

/-- Raw usage document `users/{uid}/usage/messages`. Every field can be
absent (`data.x || 0`, `data.x?.toDate() || ...` in the source). -/
structure StoredUsage where
  totalMessages : Option ℤ
  todayMessages : Option ℤ
  lastMessageAt : Option ℤ
  dailyResetAt : Option ℤ
deriving DecidableEq, Repr

/-- The usage view returned by `getUserUsage`. -/
structure Usage where
  totalMessages : ℤ
  todayMessages : ℤ
  lastMessageAt : Option ℤ
  dailyResetAt : ℤ
deriving DecidableEq, Repr

/-- Relevant slice of the account document `users/{uid}`. -/
structure UserData where
  createdAt : Option ℤ
deriving DecidableEq, Repr

/-- `FREE_TIER_LIMITS` constant from `src/usage-limits.js`. -/
structure FreeTierLimitsCfg where
  durationDays : ℤ
  totalMessages : ℤ
  dailyMessages : ℤ
  cooldownSeconds : ℤ
  rateLimit : ℤ
deriving DecidableEq, Repr

def FREE_TIER_LIMITS : FreeTierLimitsCfg :=
  { durationDays := 7, totalMessages := 50, dailyMessages := 15,
    cooldownSeconds := 3, rateLimit := 10 }

/-- One entry of `PAID_TIER_LIMITS`. -/
structure PaidLimit where
  totalMessages : ℤ
  dailyMessages : ℤ
deriving DecidableEq, Repr

/-- `PAID_TIER_LIMITS` object: property lookup by tier name (`undefined`
for keys not present, i.e. `none`). -/
def PAID_TIER_LIMITS (t : String) : Option PaidLimit :=
  if t = "tier1" then some ⟨-1, -1⟩
  else if t = "tier2" then some ⟨-1, -1⟩
  else if t = "tier3" then some ⟨-1, -1⟩
  else none

/-- JS truthiness of the `tierLevel` argument: `undefined`/`null` (modelled
`none`) and the empty string are falsy. -/
def jsTruthyStr : Option String → Bool
  | none => false
  | some s => s != ""

/-- `getUserUsage` (src/usage-limits.js:23-66): read the usage doc; on a
missing doc or a store error return a zeroed record with the next daily
reset; if `now >= dailyResetAt` report `todayMessages` as `0` and a fresh
`dailyResetAt` without persisting anything. `nm` is the value of
`getNextDayStart()`. -/
def getUserUsage (r : Read StoredUsage) (now nm : ℤ) : Usage :=
  match r with
  | .fail => { totalMessages := 0, todayMessages := 0, lastMessageAt := none, dailyResetAt := nm }
  | .missing => { totalMessages := 0, todayMessages := 0, lastMessageAt := none, dailyResetAt := nm }
  | .ok data =>
    let dailyResetAt := data.dailyResetAt.getD nm
    if dailyResetAt ≤ now then
      { totalMessages := data.totalMessages.getD 0, todayMessages := 0,
        lastMessageAt := data.lastMessageAt, dailyResetAt := nm }
    else
      { totalMessages := data.totalMessages.getD 0, todayMessages := data.todayMessages.getD 0,
        lastMessageAt := data.lastMessageAt, dailyResetAt := dailyResetAt }

/-- Result of `checkFreeTierExpiry`: either not expired, or expired with
the computed `daysExpired`. -/
inductive ExpiryResult where
  | notExpired
  | expiredFor (daysExpired : ℤ)
deriving DecidableEq, Repr

/-- `checkFreeTierExpiry` (src/usage-limits.js:71-98): missing account doc
or store error ⇒ not expired; otherwise expired iff
`(now - createdAt) / 86400000 > durationDays`, with
`daysExpired = floor(daysSinceCreation - durationDays)`. A missing
`createdAt` field defaults to `now`. -/
def checkFreeTierExpiry (r : Read UserData) (now : ℤ) : ExpiryResult :=
  match r with
  | .fail => .notExpired
  | .missing => .notExpired
  | .ok userData =>
    let createdAt := userData.createdAt.getD now
    let daysSinceCreation : ℚ := ((now - createdAt : ℤ) : ℚ) / (1000 * 60 * 60 * 24)
    if (FREE_TIER_LIMITS.durationDays : ℚ) < daysSinceCreation then
      .expiredFor ⌊daysSinceCreation - (FREE_TIER_LIMITS.durationDays : ℚ)⌋
    else
      .notExpired

/-- Machine-readable denial reasons (the source returns human-readable
strings; the numeric payload of the cooldown string is kept). -/
inductive Reason where
  | freeTierExpired
  | totalCap
  | dailyCap
  | cooldown (waitSeconds : ℤ)
  | dailyCapPaid
deriving DecidableEq, Repr

/-- Result object of `checkMessageLimit`. Keys that some branches omit
(`remainingTotal`, `remainingToday`, `expired`) are `Option`/defaulted. -/
structure LimitResult where
  allowed : Bool
  reason : Option Reason
  remainingTotal : Option ℤ
  remainingToday : Option ℤ
  expired : Bool
  usage : Usage
deriving DecidableEq, Repr

/-- The free-tier branch of `checkMessageLimit`
(src/usage-limits.js:128-184): expiry, then total cap, then daily cap,
then cooldown, else allow. The same code runs for unrecognized paid tiers
via the tail call `checkMessageLimit(uid, 'free')` at line 188. -/
def freeChecks (usage : Usage) (userR : Read UserData) (now : ℤ) : LimitResult :=
  match checkFreeTierExpiry userR now with
  | .expiredFor _ =>
    { allowed := false, reason := some .freeTierExpired,
      remainingTotal := some 0, remainingToday := some 0, expired := true, usage := usage }
  | .notExpired =>
    if FREE_TIER_LIMITS.totalMessages ≤ usage.totalMessages then
      { allowed := false, reason := some .totalCap, remainingTotal := some 0,
        remainingToday := some (max 0 (FREE_TIER_LIMITS.dailyMessages - usage.todayMessages)),
        expired := false, usage := usage }
    else if FREE_TIER_LIMITS.dailyMessages ≤ usage.todayMessages then
      { allowed := false, reason := some .dailyCap,
        remainingTotal := some (FREE_TIER_LIMITS.totalMessages - usage.totalMessages),
        remainingToday := some 0, expired := false, usage := usage }
    else
      let allowResult : LimitResult :=
        { allowed := true, reason := none,
          remainingTotal := some (FREE_TIER_LIMITS.totalMessages - usage.totalMessages - 1),
          remainingToday := some (FREE_TIER_LIMITS.dailyMessages - usage.todayMessages - 1),
          expired := false, usage := usage }
      match usage.lastMessageAt with
      | some last =>
        let timeSinceLastMessage : ℚ := ((now - last : ℤ) : ℚ) / 1000
        if timeSinceLastMessage < (FREE_TIER_LIMITS.cooldownSeconds : ℚ) then
          { allowed := false,
            reason := some (.cooldown ⌈(FREE_TIER_LIMITS.cooldownSeconds : ℚ) - timeSinceLastMessage⌉),
            remainingTotal := some (FREE_TIER_LIMITS.totalMessages - usage.totalMessages),
            remainingToday := some (FREE_TIER_LIMITS.dailyMessages - usage.todayMessages),
            expired := false, usage := usage }
        else allowResult
      | none => allowResult

/-- `checkMessageLimit` (src/usage-limits.js:103-189). The guard at line
108 routes truthy tiers other than none/free/expired to the paid branch;
an unrecognized paid tier (no `PAID_TIER_LIMITS` entry) falls through both
branches to the tail call `checkMessageLimit(uid, 'free')` (line 188),
which deterministically re-reads the same state and runs the free branch,
i.e. `freeChecks`. -/
def checkMessageLimit (tier : Option String) (userR : Read UserData)
    (usageR : Read StoredUsage) (now nm : ℤ) : LimitResult :=
  let usage := getUserUsage usageR now nm
  if jsTruthyStr tier ∧ tier ≠ some "none" ∧ tier ≠ some "free" ∧ tier ≠ some "expired" then
    match PAID_TIER_LIMITS (tier.getD "") with
    | some tierLimit =>
      if 0 < tierLimit.dailyMessages ∧ tierLimit.dailyMessages ≤ usage.todayMessages then
        { allowed := false, reason := some .dailyCapPaid,
          remainingTotal := some (-1), remainingToday := some 0,
          expired := false, usage := usage }
      else
        { allowed := true, reason := none, remainingTotal := none,
          remainingToday := none, expired := false, usage := usage }
    | none => freeChecks usage userR now
  else
    freeChecks usage userR now

/-- `incrementMessageCount` (src/usage-limits.js:194-234): the written
usage document, given the prior read `usageR`, the current time `now` and
`nm = getNextDayStart()`. -/
def incrementMessageCount (usageR : Read StoredUsage) (now nm : ℤ) : StoredUsage :=
  let usage := getUserUsage usageR now nm
  let todayMessages := if usage.dailyResetAt ≤ now then 1 else usage.todayMessages + 1
  let newDailyResetAt := if usage.dailyResetAt ≤ now then nm else usage.dailyResetAt
  { totalMessages := some (usage.totalMessages + 1),
    todayMessages := some todayMessages,
    lastMessageAt := some now,
    dailyResetAt := some newDailyResetAt }

/-- Result object of `getRemainingQuota`. -/
structure QuotaResult where
  totalRemaining : ℤ
  todayRemaining : ℤ
  totalLimit : ℤ
  dailyLimit : ℤ
  unlimited : Bool
deriving DecidableEq, Repr

/-- `getRemainingQuota` (src/usage-limits.js:249-272). Note the guard at
line 253 excludes only `none` and `free` (not `expired`). -/
def getRemainingQuota (tier : Option String) (usageR : Read StoredUsage)
    (now nm : ℤ) : QuotaResult :=
  let usage := getUserUsage usageR now nm
  if jsTruthyStr tier ∧ tier ≠ some "none" ∧ tier ≠ some "free" then
    { totalRemaining := -1, todayRemaining := -1, totalLimit := -1,
      dailyLimit := -1, unlimited := true }
  else
    { totalRemaining := max 0 (FREE_TIER_LIMITS.totalMessages - usage.totalMessages),
      todayRemaining := max 0 (FREE_TIER_LIMITS.dailyMessages - usage.todayMessages),
      totalLimit := FREE_TIER_LIMITS.totalMessages,
      dailyLimit := FREE_TIER_LIMITS.dailyMessages,
      unlimited := false }

end Humsafer

namespace Humsafer

/-! ## Helper lemmas -/

theorem PAID_TIER_LIMITS_eq (s : String) (lim : PaidLimit)
    (h : PAID_TIER_LIMITS s = some lim) : lim = ⟨-1, -1⟩ := by
  unfold PAID_TIER_LIMITS at h
  split_ifs at h <;> simp_all

theorem PAID_TIER_LIMITS_none (s : String)
    (h1 : s ≠ "tier1") (h2 : s ≠ "tier2") (h3 : s ≠ "tier3") :
    PAID_TIER_LIMITS s = none := by
  unfold PAID_TIER_LIMITS
  split_ifs <;> simp_all

/-- Any tier outside `{tier1, tier2, tier3}` takes the free branch of
`checkMessageLimit` (directly, or through the fall-through tail call). -/
theorem checkMessageLimit_eq_freeChecks (tier : Option String)
    (h1 : tier ≠ some "tier1") (h2 : tier ≠ some "tier2") (h3 : tier ≠ some "tier3")
    (userR : Read UserData) (usageR : Read StoredUsage) (now nm : ℤ) :
    checkMessageLimit tier userR usageR now nm =
      freeChecks (getUserUsage usageR now nm) userR now := by
  unfold checkMessageLimit
  split
  · rename_i hguard
    match tier with
    | none => simp [jsTruthyStr] at hguard
    | some s =>
      have hs1 : s ≠ "tier1" := fun h => h1 (by simp [h])
      have hs2 : s ≠ "tier2" := fun h => h2 (by simp [h])
      have hs3 : s ≠ "tier3" := fun h => h3 (by simp [h])
      simp only [Option.getD_some, PAID_TIER_LIMITS_none s hs1 hs2 hs3]
  · rfl

end Humsafer

namespace Humsafer

/-! ## Claim C3: increment recompute and daily-reset invariants -/

/-- Claim C3: for every stored usage record, `incrementMessageCount` writes
`totalMessages = storedTotal + 1`, `todayMessages = 1` if
`now ≥ storedDailyResetAt` and `storedToday + 1` otherwise,
`lastMessageAt = now`, and a `dailyResetAt` that is the next midnight `nm`
when crossed and unchanged otherwise — hence never moving backward (given
`now < nm`); and `getUserUsage` reports `todayMessages` as `0` when
`now ≥ storedDailyResetAt` and the stored count otherwise, before any
reset is persisted. -/
theorem incrementMessageCount_recompute (total today r : ℤ) (last : Option ℤ)
    (now nm : ℤ) (hm : now < nm) :
    incrementMessageCount (.ok ⟨some total, some today, last, some r⟩) now nm =
      { totalMessages := some (total + 1),
        todayMessages := some (if r ≤ now then 1 else today + 1),
        lastMessageAt := some now,
        dailyResetAt := some (if r ≤ now then nm else r) } ∧
    r ≤ (if r ≤ now then nm else r) ∧
    (getUserUsage (.ok ⟨some total, some today, last, some r⟩) now nm).todayMessages
      = (if r ≤ now then 0 else today) ∧
    (getUserUsage (.ok ⟨some total, some today, last, some r⟩) now nm).totalMessages
      = total := by
  unfold incrementMessageCount getUserUsage
  by_cases hr : r ≤ now <;> simp [hr, Option.getD, hm.le, not_lt.mp]
  omega

/-- Witness for C3 at a concrete record: stored total 5, today 2, reset at
100, now 150 (crossed), next midnight 200. -/
theorem incrementMessageCount_recompute_witness :
    (150 : ℤ) < 200 ∧
    (incrementMessageCount (.ok ⟨some 5, some 2, none, some 100⟩) 150 200 =
        { totalMessages := some 6, todayMessages := some (if (100 : ℤ) ≤ 150 then 1 else 3),
          lastMessageAt := some 150,
          dailyResetAt := some (if (100 : ℤ) ≤ 150 then 200 else 100) } ∧
      (100 : ℤ) ≤ (if (100 : ℤ) ≤ 150 then (200 : ℤ) else 100) ∧
      (getUserUsage (.ok ⟨some 5, some 2, none, some 100⟩) 150 200).todayMessages
        = (if (100 : ℤ) ≤ 150 then 0 else 2) ∧
      (getUserUsage (.ok ⟨some 5, some 2, none, some 100⟩) 150 200).totalMessages = 5) :=
  ⟨by decide, incrementMessageCount_recompute 5 2 100 none 150 200 (by decide)⟩

/-! ## Claim C7: paid-tier branch of checkMessageLimit -/

/-- Claim C7 counterexample: a `tier1` user is allowed, but the allow
result carries no `remainingTotal`/`remainingToday` keys at all (the
source returns `{ allowed: true, usage, reason: null }`), not `-1`/`-1`;
and a truthy unrecognized tier (`"gold"`), which the claim counts as paid,
is denied for volume at 50 total messages via the free-tier fall-through. -/
theorem checkMessageLimit_paid_c7_counterexample :
    (checkMessageLimit (some "tier1") .missing .missing 0 1).allowed = true ∧
    (checkMessageLimit (some "tier1") .missing .missing 0 1).remainingTotal ≠ some (-1) ∧
    (checkMessageLimit (some "tier1") .missing .missing 0 1).remainingToday ≠ some (-1) ∧
    (checkMessageLimit (some "gold") .missing (.ok ⟨some 50, some 0, none, some 10⟩) 20 30).allowed
      = false := by
  decide

/-- Claim C7 (amended): for the recognized paid tiers `tier1`/`tier2`/
`tier3`, `checkMessageLimit` could deny only under a configured positive
daily cap, and all configured caps are `-1`, so these tiers are always
allowed; the allow result carries no remaining-count keys (`undefined`),
not `-1`. Unrecognized truthy tiers fall through to the free-tier logic. -/
theorem checkMessageLimit_paid_allow (t : String)
    (ht : t = "tier1" ∨ t = "tier2" ∨ t = "tier3")
    (userR : Read UserData) (usageR : Read StoredUsage) (now nm : ℤ) :
    checkMessageLimit (some t) userR usageR now nm =
      { allowed := true, reason := none, remainingTotal := none, remainingToday := none,
        expired := false, usage := getUserUsage usageR now nm } ∧
    (∀ lim, PAID_TIER_LIMITS t = some lim →
      lim.dailyMessages = -1 ∧ lim.totalMessages = -1) := by
  constructor
  · unfold checkMessageLimit
    rcases ht with h | h | h <;>
      subst h <;>
      simp [jsTruthyStr, PAID_TIER_LIMITS]
  · intro lim hlim
    have := PAID_TIER_LIMITS_eq t lim hlim
    simp [this]

/-- Witness for C7 (amended) at `t = "tier1"` with a heavily used record:
still allowed, with absent remaining counts. -/
theorem checkMessageLimit_paid_allow_witness :
    ("tier1" = "tier1" ∨ "tier1" = "tier2" ∨ "tier1" = "tier3") ∧
    (checkMessageLimit (some "tier1") .missing
        (.ok ⟨some 99999, some 99999, some 0, some 10⟩) 5 20 =
      { allowed := true, reason := none, remainingTotal := none, remainingToday := none,
        expired := false,
        usage := getUserUsage (.ok ⟨some 99999, some 99999, some 0, some 10⟩) 5 20 } ∧
    (∀ lim, PAID_TIER_LIMITS "tier1" = some lim →
      lim.dailyMessages = -1 ∧ lim.totalMessages = -1)) :=
  ⟨Or.inl rfl,
   checkMessageLimit_paid_allow "tier1" (Or.inl rfl) .missing
     (.ok ⟨some 99999, some 99999, some 0, some 10⟩) 5 20⟩

end Humsafer

namespace Humsafer

/-! ## Claim C8: store failures fail open -/

/-- Claim C8: when the document store fails, a failed usage read is
replaced by a zeroed virtual record (0 total, 0 today, no `lastMessageAt`,
reset at the next midnight), a failed expiry read is treated as
not-expired, and consequently `checkMessageLimit` allows the message for
every tier — a store error alone never produces a denial. -/
theorem storeFailure_failsOpen (tier : Option String) (now nm : ℤ) :
    getUserUsage .fail now nm =
      { totalMessages := 0, todayMessages := 0, lastMessageAt := none, dailyResetAt := nm } ∧
    checkFreeTierExpiry .fail now = .notExpired ∧
    (checkMessageLimit tier .fail .fail now nm).allowed = true ∧
    (checkMessageLimit tier .fail .fail now nm).reason = none := by
  refine ⟨rfl, rfl, ?_⟩
  unfold checkMessageLimit
  split
  · split
    · rename_i lim hlim
      have hl := PAID_TIER_LIMITS_eq _ lim hlim
      subst hl
      simp [getUserUsage]
    · simp [freeChecks, checkFreeTierExpiry, FREE_TIER_LIMITS, getUserUsage]
  · simp [freeChecks, checkFreeTierExpiry, FREE_TIER_LIMITS, getUserUsage]

/-! ## Claim C9: getRemainingQuota tier classification -/

/-- Claim C9 counterexample: for tier `"expired"` the claim asserts finite
free-tier remaining counts with `unlimited = false`, but the guard in
`getRemainingQuota` (src/usage-limits.js:253) does not exclude
`"expired"`, so it reports unlimited (`-1`, `unlimited = true`). -/
theorem getRemainingQuota_c9_counterexample :
    (getRemainingQuota (some "expired") .missing 0 1).unlimited = true ∧
    (getRemainingQuota (some "expired") .missing 0 1).totalRemaining = -1 := by
  decide

/-- Claim C9 (amended): `getRemainingQuota` reports the finite free-tier
counts `max 0 (50 - total)` / `max 0 (15 - today)` with
`unlimited = false` exactly for falsy tiers (`absent`/empty) and
`"none"`/`"free"`; every other truthy tier — including `"expired"` and
unrecognized strings — reports unlimited. It therefore does NOT classify
`"expired"` the way `checkMessageLimit` does, which routes `"expired"`
through the free-tier checks. -/
theorem getRemainingQuota_classification (tier : Option String)
    (userR : Read UserData) (usageR : Read StoredUsage) (now nm : ℤ) :
    ((tier = none ∨ tier = some "" ∨ tier = some "none" ∨ tier = some "free") →
      getRemainingQuota tier usageR now nm =
        { totalRemaining := max 0 (50 - (getUserUsage usageR now nm).totalMessages),
          todayRemaining := max 0 (15 - (getUserUsage usageR now nm).todayMessages),
          totalLimit := 50, dailyLimit := 15, unlimited := false }) ∧
    ((jsTruthyStr tier ∧ tier ≠ some "none" ∧ tier ≠ some "free") →
      getRemainingQuota tier usageR now nm =
        { totalRemaining := -1, todayRemaining := -1, totalLimit := -1,
          dailyLimit := -1, unlimited := true }) ∧
    (getRemainingQuota (some "expired") usageR now nm).unlimited = true ∧
    checkMessageLimit (some "expired") userR usageR now nm =
      freeChecks (getUserUsage usageR now nm) userR now := by
  refine ⟨?_, ?_, ?_, ?_⟩
  · rintro (h | h | h | h) <;> subst h <;>
      simp [getRemainingQuota, jsTruthyStr, FREE_TIER_LIMITS]
  · intro h
    simp only [getRemainingQuota, if_pos h]
  · simp [getRemainingQuota, jsTruthyStr]
  · exact checkMessageLimit_eq_freeChecks (some "expired") (by simp) (by simp) (by simp)
      userR usageR now nm

end Humsafer

namespace Humsafer

/-! ## Claim C1: ordered denial cascade for free-tier users -/

/-- Claim C1: for every free-tier (or none/expired/unrecognized) user
whose trial has not expired, `checkMessageLimit` applies the denial checks
in order: if `totalMessages ≥ 50` it denies with the total-cap reason and
`remainingToday = max 0 (15 - today)`; otherwise if `todayMessages ≥ 15`
it denies with the daily-cap reason and `remainingTotal = 50 - total`;
otherwise if `lastMessageAt` is present and `now - lastMessageAt < 3`
seconds it denies with the cooldown reason and
`waitSeconds = ⌈3 - elapsedSeconds⌉`; otherwise it allows with
`remainingTotal = 50 - total - 1` and `remainingToday = 15 - today - 1`. -/
theorem checkMessageLimit_free_cascade (tier : Option String)
    (h1 : tier ≠ some "tier1") (h2 : tier ≠ some "tier2") (h3 : tier ≠ some "tier3")
    (userR : Read UserData) (usageR : Read StoredUsage) (now nm : ℤ) (u : Usage)
    (hu : getUserUsage usageR now nm = u)
    (hexp : checkFreeTierExpiry userR now = ExpiryResult.notExpired) :
    (50 ≤ u.totalMessages →
      checkMessageLimit tier userR usageR now nm =
        { allowed := false, reason := some Reason.totalCap, remainingTotal := some 0,
          remainingToday := some (max 0 (15 - u.todayMessages)),
          expired := false, usage := u }) ∧
    (u.totalMessages < 50 → 15 ≤ u.todayMessages →
      checkMessageLimit tier userR usageR now nm =
        { allowed := false, reason := some Reason.dailyCap,
          remainingTotal := some (50 - u.totalMessages),
          remainingToday := some 0, expired := false, usage := u }) ∧
    (∀ last : ℤ, u.totalMessages < 50 → u.todayMessages < 15 →
      u.lastMessageAt = some last → ((now - last : ℤ) : ℚ) / 1000 < 3 →
      checkMessageLimit tier userR usageR now nm =
        { allowed := false,
          reason := some (Reason.cooldown ⌈(3 : ℚ) - ((now - last : ℤ) : ℚ) / 1000⌉),
          remainingTotal := some (50 - u.totalMessages),
          remainingToday := some (15 - u.todayMessages),
          expired := false, usage := u }) ∧
    (u.totalMessages < 50 → u.todayMessages < 15 →
      (∀ last : ℤ, u.lastMessageAt = some last → (3 : ℚ) ≤ ((now - last : ℤ) : ℚ) / 1000) →
      checkMessageLimit tier userR usageR now nm =
        { allowed := true, reason := none,
          remainingTotal := some (50 - u.totalMessages - 1),
          remainingToday := some (15 - u.todayMessages - 1),
          expired := false, usage := u }) := by
  rw [checkMessageLimit_eq_freeChecks tier h1 h2 h3 userR usageR now nm, hu]
  unfold freeChecks
  rw [hexp]
  have hcool : ((FREE_TIER_LIMITS.cooldownSeconds : ℤ) : ℚ) = 3 := by
    norm_num [FREE_TIER_LIMITS]
  refine ⟨?_, ?_, ?_, ?_⟩
  · intro htot
    rw [if_pos (by simp [FREE_TIER_LIMITS]; omega)]
    simp [FREE_TIER_LIMITS]
  · intro htot hday
    rw [if_neg (by simp [FREE_TIER_LIMITS]; omega),
        if_pos (by simp [FREE_TIER_LIMITS]; omega)]
    simp [FREE_TIER_LIMITS]
  · intro last htot hday hlast helapsed
    rw [if_neg (by simp [FREE_TIER_LIMITS]; omega),
        if_neg (by simp [FREE_TIER_LIMITS]; omega), hlast]
    simp only [hcool]
    rw [if_pos helapsed]
    simp [FREE_TIER_LIMITS]
  · intro htot hday hnocool
    rw [if_neg (by simp [FREE_TIER_LIMITS]; omega),
        if_neg (by simp [FREE_TIER_LIMITS]; omega)]
    match hl : u.lastMessageAt with
    | none => simp [FREE_TIER_LIMITS]
    | some last =>
      have := hnocool last hl
      simp only [hcool]
      rw [if_neg (by exact not_lt.mpr this)]
      simp [FREE_TIER_LIMITS]

end Humsafer

namespace Humsafer

/-- Witness for C1: free tier, 3 total / 2 today, no previous message,
trial not expired — allowed with remaining 46 total and 12 today. -/
theorem checkMessageLimit_free_cascade_witness :
    ((some "free" : Option String) ≠ some "tier1" ∧
     getUserUsage (.ok ⟨some 3, some 2, none, some 1000⟩) 500 86400000 =
       ⟨3, 2, none, 1000⟩ ∧
     checkFreeTierExpiry .missing 500 = .notExpired) ∧
    checkMessageLimit (some "free") .missing (.ok ⟨some 3, some 2, none, some 1000⟩)
        500 86400000 =
      { allowed := true, reason := none, remainingTotal := some 46,
        remainingToday := some 12, expired := false, usage := ⟨3, 2, none, 1000⟩ } := by
  refine ⟨⟨by decide, by decide, rfl⟩, ?_⟩
  have h := (checkMessageLimit_free_cascade (some "free") (by decide) (by decide)
      (by decide) .missing (.ok ⟨some 3, some 2, none, some 1000⟩) 500 86400000
      ⟨3, 2, none, 1000⟩ (by decide) rfl).2.2.2
      (by decide) (by decide) (fun last hl => by simp at hl)
  rw [h]
  decide

/-! ## Claim C2: free-trial expiry -/

/-- Claim C2: for every free-tier (or none/expired/unrecognized) user with
an account document, if `ageDays = (now - createdAt) / 86400000` exceeds
7, `checkFreeTierExpiry` reports expiry with
`daysExpired = ⌊ageDays - 7⌋` and `checkMessageLimit` denies with the
free-tier-expired reason and `remainingTotal = remainingToday = 0`; if
`ageDays ≤ 7`, or the account document is absent, the expiry check does
not report expiry. -/
theorem checkFreeTierExpiry_expiry (tier : Option String)
    (h1 : tier ≠ some "tier1") (h2 : tier ≠ some "tier2") (h3 : tier ≠ some "tier3")
    (usageR : Read StoredUsage) (createdAt now nm : ℤ) :
    ((7 : ℚ) < ((now - createdAt : ℤ) : ℚ) / 86400000 →
      checkFreeTierExpiry (.ok ⟨some createdAt⟩) now =
        .expiredFor ⌊((now - createdAt : ℤ) : ℚ) / 86400000 - 7⌋ ∧
      checkMessageLimit tier (.ok ⟨some createdAt⟩) usageR now nm =
        { allowed := false, reason := some .freeTierExpired,
          remainingTotal := some 0, remainingToday := some 0, expired := true,
          usage := getUserUsage usageR now nm }) ∧
    (((now - createdAt : ℤ) : ℚ) / 86400000 ≤ 7 →
      checkFreeTierExpiry (.ok ⟨some createdAt⟩) now = .notExpired) ∧
    checkFreeTierExpiry .missing now = .notExpired := by
  have hd : ((FREE_TIER_LIMITS.durationDays : ℤ) : ℚ) = 7 := by
    norm_num [FREE_TIER_LIMITS]
  have hsame : ((now - createdAt : ℤ) : ℚ) / (1000 * 60 * 60 * 24)
      = ((now - createdAt : ℤ) : ℚ) / 86400000 := by norm_num
  have hexp1 : ∀ _ : (7 : ℚ) < ((now - createdAt : ℤ) : ℚ) / 86400000,
      checkFreeTierExpiry (.ok ⟨some createdAt⟩) now =
        .expiredFor ⌊((now - createdAt : ℤ) : ℚ) / 86400000 - 7⌋ := by
    intro hage
    unfold checkFreeTierExpiry
    simp only [Option.getD_some, hsame, hd, if_pos hage]
  refine ⟨fun hage => ⟨hexp1 hage, ?_⟩, fun hle => ?_, rfl⟩
  · rw [checkMessageLimit_eq_freeChecks tier h1 h2 h3 (.ok ⟨some createdAt⟩) usageR now nm]
    unfold freeChecks
    rw [hexp1 hage]
  · unfold checkFreeTierExpiry
    simp only [Option.getD_some, hsame, hd, if_neg (not_lt.mpr hle)]

/-- Witness for C2: account created exactly 8 days (691200000 ms) before
`now` — expired with `daysExpired = 1`, and `checkMessageLimit` denies
with zero remaining counts. -/
theorem checkFreeTierExpiry_expiry_witness :
    ((7 : ℚ) < ((691200000 - 0 : ℤ) : ℚ) / 86400000 ∧
     (some "free" : Option String) ≠ some "tier1") ∧
    checkFreeTierExpiry (.ok ⟨some 0⟩) 691200000 = .expiredFor 1 ∧
    checkMessageLimit (some "free") (.ok ⟨some 0⟩) .missing 691200000 777600000 =
      { allowed := false, reason := some .freeTierExpired,
        remainingTotal := some 0, remainingToday := some 0, expired := true,
        usage := getUserUsage .missing 691200000 777600000 } := by
  have hage : (7 : ℚ) < ((691200000 - 0 : ℤ) : ℚ) / 86400000 := by norm_num
  have h := (checkFreeTierExpiry_expiry (some "free") (by decide) (by decide) (by decide)
      .missing 0 691200000 777600000).1 hage
  have hfl : ⌊((691200000 - 0 : ℤ) : ℚ) / 86400000 - 7⌋ = 1 := by
    norm_num
  refine ⟨⟨hage, by decide⟩, ?_, h.2⟩
  rw [h.1, hfl]

end Humsafer

namespace Humsafer

/-! ## shortenToTwoSentences (src/ai.js:1210-1225) -/

/-- JS `\s` whitespace class members relevant here. -/
def jsWS (c : Char) : Bool :=
  c == ' ' || c == '\t' || c == '\n' || c == '\r' || c == '\x0b' || c == '\x0c'

/-- The sentence terminators of the split regex `[\.\!\?।]`. -/
def isTerm (c : Char) : Bool :=
  c == '.' || c == '!' || c == '?' || c == '।'

/-- JS `String.prototype.trim` on a character list. -/
def trimChars (l : List Char) : List Char :=
  ((l.dropWhile jsWS).reverse.dropWhile jsWS).reverse

/-- State machine for `text.split(/(?<=[\.\!\?।])\s+/)`: a whitespace run
starting right after a terminator is a separator (consumed entirely);
`acc` is the current clause reversed, `skipping` means we are inside a
separator run. -/
def splitClausesGo : List Char → List Char → Bool → List (List Char)
  | [], acc, _ => [acc.reverse]
  | c :: rest, acc, true =>
    if jsWS c then splitClausesGo rest acc true
    else splitClausesGo rest [c] false
  | c :: rest, acc, false =>
    if jsWS c && (match acc with | p :: _ => isTerm p | [] => false) then
      acc.reverse :: splitClausesGo rest [] true
    else splitClausesGo rest (c :: acc) false

/-- `t.split(/(?<=[\.\!\?।])\s+/).filter(Boolean)`. -/
def jsSplitClauses (l : List Char) : List (List Char) :=
  (splitClausesGo l [] false).filter (fun p => !p.isEmpty)

/-- `parts.slice(0, 2).join(' ')` (on the already-taken prefix). -/
def joinSpace : List (List Char) → List Char
  | [] => []
  | [x] => x
  | x :: y :: rest => x ++ ' ' :: joinSpace (y :: rest)

/-- `shortenToTwoSentences` (src/ai.js:1210-1225): trim; split into
clauses; join the first two with a space; but if that joined string is
under 20 characters (and there is at least one clause), return only the
first clause. -/
def shortenToTwoSentences (s : String) : String :=
  let t := trimChars s.toList
  if t.isEmpty then String.mk t
  else
    let parts := jsSplitClauses t
    let firstTwo := joinSpace (parts.take 2)
    if firstTwo.length < 20 ∧ 0 < parts.length then String.mk (parts.headD [])
    else String.mk firstTwo

end Humsafer

namespace Humsafer

/-- Claim C4 counterexample: the under-20 test is applied to the JOINED
first two clauses, not to the first clause alone. So `"A. B. C."` maps to
`"A."` (the join `"A. B."` is under 20 chars), not to `"A. B."`; and a
short first clause with a long second clause still returns two clauses. -/
theorem shortenToTwoSentences_c4_counterexample :
    shortenToTwoSentences "A. B. C." = "A." ∧
    shortenToTwoSentences "A. B. C." ≠ "A. B." ∧
    shortenToTwoSentences "Hi. This is a long second sentence here." =
      "Hi. This is a long second sentence here." := by
  decide

/-- Claim C4 (amended): the transform splits the trimmed text into clauses
on whitespace runs following a sentence terminator `. ! ? ।`, joins the
first two clauses with a space, and returns only the first clause exactly
when that JOINED string is under 20 characters or there are at most one
clause; in particular `"A. B. C."` maps to `"A."` and `"Hi. "` to
`"Hi."`. -/
theorem shortenToTwoSentences_characterization (s : String)
    (h : ¬ (trimChars s.toList).isEmpty) :
    (shortenToTwoSentences s = String.mk ((jsSplitClauses (trimChars s.toList)).headD [])
      ↔ (joinSpace ((jsSplitClauses (trimChars s.toList)).take 2)).length < 20
        ∨ (jsSplitClauses (trimChars s.toList)).length ≤ 1) ∧
    shortenToTwoSentences s =
      (if (joinSpace ((jsSplitClauses (trimChars s.toList)).take 2)).length < 20
       then String.mk ((jsSplitClauses (trimChars s.toList)).headD [])
       else String.mk (joinSpace ((jsSplitClauses (trimChars s.toList)).take 2))) ∧
    shortenToTwoSentences "A. B. C." = "A." ∧
    shortenToTwoSentences "Hi. " = "Hi." := by
  set Ps := jsSplitClauses (trimChars s.toList) with hPs
  have hmain : shortenToTwoSentences s =
      (if (joinSpace (Ps.take 2)).length < 20 ∧ 0 < Ps.length
       then String.mk (Ps.headD [])
       else String.mk (joinSpace (Ps.take 2))) := by
    simp only [shortenToTwoSentences, if_neg h, hPs]
  have hC : shortenToTwoSentences s =
      (if (joinSpace (Ps.take 2)).length < 20
       then String.mk (Ps.headD [])
       else String.mk (joinSpace (Ps.take 2))) := by
    rw [hmain]
    by_cases h20 : (joinSpace (Ps.take 2)).length < 20
    · by_cases hlen : 0 < Ps.length
      · rw [if_pos ⟨h20, hlen⟩, if_pos h20]
      · have hnil : Ps = [] := List.eq_nil_of_length_eq_zero (by omega)
        rw [if_neg (by tauto), hnil]
        simp [joinSpace]
    · rw [if_neg (by tauto), if_neg h20]
  refine ⟨⟨?_, ?_⟩, hC, by decide, by decide⟩
  · intro hA
    by_contra hB
    push_neg at hB
    obtain ⟨h20, hlen⟩ := hB
    rw [hC, if_neg (not_lt.mpr h20)] at hA
    match hPs2 : Ps, hlen with
    | p1 :: p2 :: rest, _ =>
      have hj : joinSpace (List.take 2 (p1 :: p2 :: rest)) = p1 ++ ' ' :: p2 := rfl
      have hh : (p1 :: p2 :: rest).headD [] = p1 := rfl
      rw [hj, hh] at hA
      have hlen2 := congrArg (fun t => t.data.length) hA
      simp only [List.length_append, List.length_cons] at hlen2
      omega
  · intro hB
    rcases hB with h20 | hlen
    · rw [hC, if_pos h20]
    · rw [hC]
      match hPs2 : Ps, hlen with
      | [], _ => simp [joinSpace]
      | [p], _ =>
        have hj : joinSpace (List.take 2 [p]) = p := rfl
        rw [hj]
        split_ifs <;> rfl

end Humsafer

namespace Humsafer

/-- Witness for C4 at `s = "A. B. C."`: the trimmed text is nonempty and
the first-clause-only condition holds exactly because the joined first two
clauses ("A. B.") is under 20 characters. -/
theorem shortenToTwoSentences_characterization_witness :
    ¬ (trimChars "A. B. C.".toList).isEmpty ∧
    (shortenToTwoSentences "A. B. C."
        = String.mk ((jsSplitClauses (trimChars "A. B. C.".toList)).headD [])
      ↔ (joinSpace ((jsSplitClauses (trimChars "A. B. C.".toList)).take 2)).length < 20
        ∨ (jsSplitClauses (trimChars "A. B. C.".toList)).length ≤ 1) :=
  ⟨by decide, (shortenToTwoSentences_characterization "A. B. C." (by decide)).1⟩

/-! ## Orchestrator provider chain (src/ai.js:745-950) -/

/-- Observable events of one `processMessage` request, in program order:
provider invocations, the HTTP response, and the fire-and-forget usage
increment dispatched after the response. -/
inductive Ev where
  | callGrok
  | callOpenAI
  | callGemini
  | respondOk (response : String)
  | respondError (status : ℕ)
  | incrementUsage
deriving DecidableEq, Repr

/-- Provider environment: which API keys are configured, and the text each
provider would produce if invoked. An empty string stands for an empty
result or a caught per-provider error (the source maps both to `''`). -/
structure Providers where
  hasGrokKey : Bool
  hasOpenAIKey : Bool
  hasGeminiKey : Bool
  grok : String
  openai : String
  gemini : String
deriving DecidableEq, Repr

/-- The fixed refusal string of src/ai.js:780. -/
def nightRefusal : String :=
  "Night mode is only available for Premium (Tier 2+) subscribers. Please upgrade."

/-- Night-mode branch (src/ai.js:758-781): tiers `tier2`/`tier3` try Grok
(if its key is configured) then fall back to OpenAI on an empty result;
any other tier gets the fixed refusal with no provider call. Returns the
invoked-provider events and the chain result. -/
def chainNight (tier : String) (pv : Providers) : List Ev × String :=
  if tier = "tier2" ∨ tier = "tier3" then
    let s1 := if pv.hasGrokKey then ([Ev.callGrok], pv.grok) else ([], "")
    if s1.2 = "" ∧ pv.hasOpenAIKey then (s1.1 ++ [Ev.callOpenAI], pv.openai) else s1
  else
    ([], nightRefusal)

/-- General-mode branch (src/ai.js:782-866): Gemini first (vision or text,
both fault-isolated identically), then OpenAI, then Grok, each attempted
only while the running result is empty and its key is configured. -/
def chainGeneral (pv : Providers) : List Ev × String :=
  let s1 := if pv.hasGeminiKey then ([Ev.callGemini], pv.gemini) else ([], "")
  let s2 := if s1.2 = "" ∧ pv.hasOpenAIKey then (s1.1 ++ [Ev.callOpenAI], pv.openai) else s1
  if s2.2 = "" ∧ pv.hasGrokKey then (s2.1 ++ [Ev.callGrok], pv.grok) else s2

/-- End of `processMessage` (src/ai.js:868-949): optional short-reply
transform (applied only to a truthy result), then the emptiness gate
`!result || result.trim() === ''` → 500 error with no usage increment;
otherwise respond with the result and dispatch `incrementMessageCount`
after the response. Returns (event trace, final result string). -/
def chainOutcome (mode : String) (tier : String) (pv : Providers)
    (replyStyle : Option String) : List Ev × String :=
  let c := if mode = "night" then chainNight tier pv else chainGeneral pv
  let result := if replyStyle = some "short" ∧ c.2 ≠ "" then shortenToTwoSentences c.2 else c.2
  if (trimChars result.toList).isEmpty then
    (c.1 ++ [Ev.respondError 500], result)
  else
    (c.1 ++ [Ev.respondOk result, Ev.incrementUsage], result)

/-- The chain sections emit only provider-call events. -/
theorem chain_events_are_calls (mode tier : String) (pv : Providers) :
    ∀ e ∈ (if mode = "night" then chainNight tier pv else chainGeneral pv).1,
      e = Ev.callGrok ∨ e = Ev.callOpenAI ∨ e = Ev.callGemini := by
  intro e he
  split at he
  · by_cases ht : tier = "tier2" ∨ tier = "tier3"
    · by_cases hg : pv.hasGrokKey <;>
        by_cases hge : pv.grok = "" <;>
        by_cases ho : pv.hasOpenAIKey <;>
        simp [chainNight, ht, hg, hge, ho] at he <;>
        tauto
    · simp [chainNight, ht] at he
  · by_cases hgm : pv.hasGeminiKey <;>
      by_cases hgme : pv.gemini = "" <;>
      by_cases ho : pv.hasOpenAIKey <;>
      by_cases hoe : pv.openai = "" <;>
      by_cases hk : pv.hasGrokKey <;>
      simp [chainGeneral, hgm, hgme, ho, hoe, hk] at he <;>
      tauto

/-- If every provider would produce empty text, the general-mode chain
result is empty. -/
theorem chainGeneral_empty (pv : Providers)
    (hg : pv.gemini = "") (ho : pv.openai = "") (hk : pv.grok = "") :
    (chainGeneral pv).2 = "" := by
  by_cases h1 : pv.hasGeminiKey <;>
    by_cases h2 : pv.hasOpenAIKey <;>
    by_cases h3 : pv.hasGrokKey <;>
    simp [chainGeneral, h1, h2, h3, hg, ho, hk]

end Humsafer

namespace Humsafer

/-- In night mode, a tier outside `{tier2, tier3}` produces exactly the
refusal response followed by the usage increment, with no provider call. -/
theorem chainOutcome_night_nonpermitted (tier : String) (pv : Providers)
    (style : Option String) (h2 : tier ≠ "tier2") (h3 : tier ≠ "tier3") :
    chainOutcome "night" tier pv style =
      ([Ev.respondOk nightRefusal, Ev.incrementUsage], nightRefusal) := by
  have hchain : chainNight tier pv = ([], nightRefusal) := by
    unfold chainNight
    rw [if_neg (by tauto)]
  simp only [chainOutcome, hchain, if_true, ite_true]
  by_cases hs : style = some "short"
  · subst hs
    decide
  · have hcond : ¬ (style = some "short" ∧ nightRefusal ≠ "") := fun hc => hs hc.1
    rw [if_neg hcond]
    decide

end Humsafer

namespace Humsafer

/-! ## Claim C6: restricted-mode gate -/

/-- Claim C6: in night (restricted) mode, a request from any tier outside
`{tier2, tier3}` returns the fixed refusal string and invokes zero
generation providers — the provider chain is never entered. -/
theorem nightMode_refusal_no_providers (mode tier : String) (pv : Providers)
    (style : Option String) (hm : mode = "night")
    (h2 : tier ≠ "tier2") (h3 : tier ≠ "tier3") :
    (chainOutcome mode tier pv style).1 = [Ev.respondOk nightRefusal, Ev.incrementUsage] ∧
    (chainOutcome mode tier pv style).2 = nightRefusal ∧
    Ev.callGrok ∉ (chainOutcome mode tier pv style).1 ∧
    Ev.callOpenAI ∉ (chainOutcome mode tier pv style).1 ∧
    Ev.callGemini ∉ (chainOutcome mode tier pv style).1 := by
  subst hm
  rw [chainOutcome_night_nonpermitted tier pv style h2 h3]
  exact ⟨rfl, rfl, by decide, by decide, by decide⟩

/-- Witness for C6: night mode, `free` tier, all providers configured and
able to answer, short reply style — the refusal is returned and no
provider event occurs. -/
theorem nightMode_refusal_no_providers_witness :
    ("night" = "night" ∧ "free" ≠ "tier2" ∧ "free" ≠ "tier3") ∧
    ((chainOutcome "night" "free" ⟨true, true, true, "g", "o", "m"⟩ (some "short")).1
        = [Ev.respondOk nightRefusal, Ev.incrementUsage] ∧
     (chainOutcome "night" "free" ⟨true, true, true, "g", "o", "m"⟩ (some "short")).2
        = nightRefusal ∧
     Ev.callGrok ∉ (chainOutcome "night" "free" ⟨true, true, true, "g", "o", "m"⟩ (some "short")).1 ∧
     Ev.callOpenAI ∉ (chainOutcome "night" "free" ⟨true, true, true, "g", "o", "m"⟩ (some "short")).1 ∧
     Ev.callGemini ∉ (chainOutcome "night" "free" ⟨true, true, true, "g", "o", "m"⟩ (some "short")).1) :=
  ⟨⟨rfl, by decide, by decide⟩,
   nightMode_refusal_no_providers "night" "free" ⟨true, true, true, "g", "o", "m"⟩
     (some "short") rfl (by decide) (by decide)⟩

/-! ## Claim C10: the refusal consumes a quota slot -/

/-- Claim C10: in night mode with a non-permitted tier, the fixed refusal
is sent as a successful (non-error) response and the usage increment is
still dispatched — the refusal consumes a quota slot exactly like a real
generated reply. -/
theorem nightRefusal_consumes_quota (mode tier : String) (pv : Providers)
    (style : Option String) (hm : mode = "night")
    (h2 : tier ≠ "tier2") (h3 : tier ≠ "tier3") :
    Ev.incrementUsage ∈ (chainOutcome mode tier pv style).1 ∧
    Ev.respondOk nightRefusal ∈ (chainOutcome mode tier pv style).1 ∧
    (∀ st : ℕ, Ev.respondError st ∉ (chainOutcome mode tier pv style).1) := by
  subst hm
  rw [chainOutcome_night_nonpermitted tier pv style h2 h3]
  refine ⟨by decide, by decide, fun st => ?_⟩
  simp

/-- Witness for C10: night mode, `none` tier, no provider keys at all —
the refusal response is still sent successfully and the increment still
dispatched. -/
theorem nightRefusal_consumes_quota_witness :
    ("night" = "night" ∧ "none" ≠ "tier2" ∧ "none" ≠ "tier3") ∧
    (Ev.incrementUsage ∈ (chainOutcome "night" "none" ⟨false, false, false, "", "", ""⟩ none).1 ∧
     Ev.respondOk nightRefusal ∈ (chainOutcome "night" "none" ⟨false, false, false, "", "", ""⟩ none).1 ∧
     (∀ st : ℕ, Ev.respondError st ∉ (chainOutcome "night" "none" ⟨false, false, false, "", "", ""⟩ none).1)) :=
  ⟨⟨rfl, by decide, by decide⟩,
   nightRefusal_consumes_quota "night" "none" ⟨false, false, false, "", "", ""⟩ none
     rfl (by decide) (by decide)⟩

end Humsafer

namespace Humsafer

/-! ## Claim C5: usage increment iff non-empty chain result -/

/-- Claim C5: the usage increment is dispatched iff the final chain result
is non-empty (the source's emptiness test `!result || result.trim()===''`,
i.e. blank after trimming): a blank result ends in a 500 error response
with no increment (in particular, outside night mode, whenever every
provider produces empty text); a non-blank result is answered with a
success response immediately followed by the increment dispatch. -/
theorem chainOutcome_increment_iff (mode tier : String) (pv : Providers)
    (style : Option String) :
    (Ev.incrementUsage ∈ (chainOutcome mode tier pv style).1
      ↔ ¬ (trimChars (chainOutcome mode tier pv style).2.toList).isEmpty) ∧
    ((trimChars (chainOutcome mode tier pv style).2.toList).isEmpty →
      Ev.respondError 500 ∈ (chainOutcome mode tier pv style).1 ∧
      Ev.incrementUsage ∉ (chainOutcome mode tier pv style).1) ∧
    (¬ (trimChars (chainOutcome mode tier pv style).2.toList).isEmpty →
      ∃ pre, (chainOutcome mode tier pv style).1
        = pre ++ [Ev.respondOk (chainOutcome mode tier pv style).2, Ev.incrementUsage]) ∧
    (mode ≠ "night" → pv.gemini = "" → pv.openai = "" → pv.grok = "" →
      Ev.respondError 500 ∈ (chainOutcome mode tier pv style).1 ∧
      Ev.incrementUsage ∉ (chainOutcome mode tier pv style).1) := by
  set c := if mode = "night" then chainNight tier pv else chainGeneral pv with hc
  set result := if style = some "short" ∧ c.2 ≠ "" then shortenToTwoSentences c.2 else c.2
    with hres
  have hnotinc : Ev.incrementUsage ∉ c.1 := by
    intro h
    rw [hc] at h
    rcases chain_events_are_calls mode tier pv Ev.incrementUsage h with h' | h' | h' <;>
      simp at h'
  have hout : chainOutcome mode tier pv style =
      if (trimChars result.toList).isEmpty then (c.1 ++ [Ev.respondError 500], result)
      else (c.1 ++ [Ev.respondOk result, Ev.incrementUsage], result) := rfl
  have hsnd : (chainOutcome mode tier pv style).2 = result := by
    rw [hout]
    split <;> rfl
  by_cases hemp : (trimChars result.toList).isEmpty
  · have h1 : chainOutcome mode tier pv style = (c.1 ++ [Ev.respondError 500], result) := by
      rw [hout, if_pos hemp]
    refine ⟨?_, fun _ => ?_, fun hne => ?_, fun _ _ _ _ => ?_⟩
    · rw [h1]
      have hemp2 : trimChars result.data = [] := by simpa using hemp
      simp [hemp2, hnotinc]
    · rw [h1]
      exact ⟨by simp, by simp [hnotinc]⟩
    · exact absurd (hsnd ▸ hemp) hne
    · rw [h1]
      exact ⟨by simp, by simp [hnotinc]⟩
  · have h1 : chainOutcome mode tier pv style
        = (c.1 ++ [Ev.respondOk result, Ev.incrementUsage], result) := by
      rw [hout, if_neg hemp]
    refine ⟨?_, fun habs => ?_, fun _ => ?_, fun hmode hg ho hk => ?_⟩
    · rw [h1]
      have hemp2 : ¬ trimChars result.data = [] := by simpa using hemp
      simp [hemp2, hnotinc]
    · exact absurd (hsnd ▸ habs) hemp
    · exact ⟨c.1, by rw [h1]⟩
    · exfalso
      have hcg : c = chainGeneral pv := by rw [hc, if_neg hmode]
      have hc2 : c.2 = "" := by
        rw [hcg]
        exact chainGeneral_empty pv hg ho hk
      have hr : result = "" := by
        rw [hres, if_neg (fun hco => hco.2 hc2)]
        exact hc2
      rw [hr] at hemp
      exact hemp (by decide)

end Humsafer
